import Mathlib

/-!
Verification of `superset/sql_parse.py` (table extraction, query introspection,
RLS rewriting, KQL splitting) via a shallow embedding in Lean.

External capabilities (the sqlglot/sqlparse parsers and the RLS predicate
provider) are treated as inputs, as the specification scopes them out:
parsed token trees and scope trees are the function inputs, and the logic of
`sql_parse.py` over those trees is embedded here.
-/

/- ### Character constants

Written via `Char.ofNat` codes: 39 is the single-quote, 92 the backslash,
96 the backtick. -/

def sqChar : Char := Char.ofNat 39

def bslChar : Char := Char.ofNat 92

def btChar : Char := Char.ofNat 96

/- ### Kernel-reducible string helpers

ASCII case mapping and integer parsing over the character list, mirroring
Python `str.upper()` / `str.lower()` / `int()` on the token values occurring
here (keywords and integer literals). -/

def upperStr (s : String) : String :=
  String.mk (s.data.map Char.toUpper)

def lowerStr (s : String) : String :=
  String.mk (s.data.map Char.toLower)

def digitsToNat (ds : List Char) : Nat :=
  ds.foldl (fun a c => a * 10 + (c.toNat - 48)) 0

/-- Python `int(...)` on a lexed (optionally signed) integer literal. -/
def parsePyInt (s : String) : Int :=
  match s.data with
  | '-' :: ds => - (digitsToNat ds : Int)
  | ds => (digitsToNat ds : Int)

/- ### The `Table` dataclass (sql_parse.py lines 257-279)

`Table.__str__` joins the truthy parts of `[catalog, schema, table]` with `.`,
each part `urllib.parse.quote`-d with `safe=""` and with literal dots then
replaced by `%2E`.  `urllib.parse.quote` percent-encodes every UTF-8 byte of a
character that is not unreserved (ALPHA / DIGIT / `-` / `.` / `_` / `~`); the
subsequent `.replace(".", "%2E")` rewrites every surviving dot, so the
composition encodes `.` as `%2E` directly and keeps the other unreserved
characters. -/

structure Table where
  table : String
  schema : Option String := none
  catalog : Option String := none
  deriving DecidableEq, Repr

def hexUpperDigit (n : Nat) : Char :=
  if n < 10 then Char.ofNat (48 + n) else Char.ofNat (55 + n)

def percentEncodeByte (b : Nat) : String :=
  String.mk ['%', hexUpperDigit (b / 16), hexUpperDigit (b % 16)]

/-- UTF-8 encoding of a single character as a list of byte values. -/
def utf8Bytes (c : Char) : List Nat :=
  let n := c.toNat
  if n < 0x80 then [n]
  else if n < 0x800 then [0xC0 + n / 64, 0x80 + n % 64]
  else if n < 0x10000 then [0xE0 + n / 4096, 0x80 + n / 64 % 64, 0x80 + n % 64]
  else [0xF0 + n / 262144, 0x80 + n / 4096 % 64, 0x80 + n / 64 % 64, 0x80 + n % 64]

def isUnreservedChar (c : Char) : Bool :=
  (c ≥ 'A' && c ≤ 'Z') || (c ≥ 'a' && c ≤ 'z') || (c ≥ '0' && c ≤ '9') ||
    c = '-' || c = '_' || c = '~'

/-- `urllib.parse.quote(part, safe="")` followed by `.replace(".", "%2E")`. -/
def pyQuoteDotEscaped (s : String) : String :=
  String.join (s.toList.map fun c =>
    if c = '.' then "%2E"
    else if isUnreservedChar c then String.singleton c
    else String.join ((utf8Bytes c).map percentEncodeByte))

/-- Python truthiness filter over `[self.catalog, self.schema, self.table]`:
`None` and the empty string are falsy and omitted. -/
def tableParts (t : Table) : List String :=
  ([t.catalog, t.schema, some t.table].filterMap id).filter (fun p => p ≠ "")

/-- `Table.__str__` (sql_parse.py lines 267-276). -/
def tableStr (t : Table) : String :=
  String.intercalate "." ((tableParts t).map pyQuoteDotEscaped)

/-- `Table.__eq__` (sql_parse.py lines 278-279): compares `str(self)` with
`str(__o)`; restricted here to the case where both operands are Tables. -/
def tableEq (a b : Table) : Bool :=
  tableStr a = tableStr b

/-- The input of the dataclass-generated `Table.__hash__`.  Because the class
is declared `@dataclass(eq=True, frozen=True)` and does not define its own
`__hash__`, Python generates `__hash__` as the hash of the tuple of fields
`(self.table, self.schema, self.catalog)`; the user-defined `__eq__` is kept
(the `eq=True` parameter is ignored when the class defines `__eq__`).  The
generated hash is therefore a function of this field triple, not of the
canonical string. -/
def tableHashFields (t : Table) : String × Option String × Option String :=
  (t.table, t.schema, t.catalog)

/- ### `split_kql` (sql_parse.py lines 547-602)

A four-state character machine.  The Python loop reads `query[i-1]` and
`query[i-2:i]` for the escape and triple-backtick lookbacks; the scan below
carries the two previous characters explicitly (`prev1` is the character at
`i-1`, `prev2` at `i-2`, `none` when the index would fall before the start of
the string; the `INSIDE_*` branches can only fire at `i ≥ 1` since the state
at index 0 is `OUTSIDE_STRING`, and a two-character lookback slice at `i < 2`
never equals two backticks).  The current statement is accumulated
character-by-character, which yields exactly the slice
`query[statement_start:i]` that the Python code appends at each splitting
semicolon. -/

inductive KQLSplitState where
  | OUTSIDE_STRING
  | INSIDE_SINGLE_QUOTED_STRING
  | INSIDE_DOUBLE_QUOTED_STRING
  | INSIDE_MULTILINE_STRING
  deriving DecidableEq, Repr

structure KqlAcc where
  state : KQLSplitState
  prev1 : Option Char
  prev2 : Option Char
  cur : List Char
  stmts : List (List Char)
  deriving DecidableEq, Repr

def kqlInit : KqlAcc :=
  { state := .OUTSIDE_STRING, prev1 := none, prev2 := none, cur := [], stmts := [] }

/-- One iteration of the `split_kql` loop body for the character `c`. -/
def kqlStep (a : KqlAcc) (c : Char) : KqlAcc :=
  let b :=
    if a.state = .OUTSIDE_STRING then
      if c = ';' then
        { a with stmts := a.stmts ++ [a.cur], cur := [] }
      else if c = sqChar then
        { a with state := .INSIDE_SINGLE_QUOTED_STRING, cur := a.cur ++ [c] }
      else if c = '"' then
        { a with state := .INSIDE_DOUBLE_QUOTED_STRING, cur := a.cur ++ [c] }
      else if c = btChar ∧ a.prev2 = some btChar ∧ a.prev1 = some btChar then
        { a with state := .INSIDE_MULTILINE_STRING, cur := a.cur ++ [c] }
      else
        { a with cur := a.cur ++ [c] }
    else if a.state = .INSIDE_SINGLE_QUOTED_STRING ∧ c = sqChar ∧ a.prev1 ≠ some bslChar then
      { a with state := .OUTSIDE_STRING, cur := a.cur ++ [c] }
    else if a.state = .INSIDE_DOUBLE_QUOTED_STRING ∧ c = '"' ∧ a.prev1 ≠ some bslChar then
      { a with state := .OUTSIDE_STRING, cur := a.cur ++ [c] }
    else if a.state = .INSIDE_MULTILINE_STRING ∧ c = btChar
        ∧ a.prev2 = some btChar ∧ a.prev1 = some btChar then
      { a with state := .OUTSIDE_STRING, cur := a.cur ++ [c] }
    else
      { a with cur := a.cur ++ [c] }
  { b with prev1 := some c, prev2 := a.prev1 }

/-- `split_kql` (sql_parse.py lines 561-602), over the input as a character
list; statements are returned as character lists. -/
def split_kql (kql : List Char) : List (List Char) :=
  let query := if kql.getLast? = some ';' then kql else kql ++ [';']
  (query.foldl kqlStep kqlInit).stmts

/-- The scan of the raw (un-normalized) input, used to speak about the state
and the pending statement at the end of the input. -/
def kqlScan (kql : List Char) : KqlAcc :=
  kql.foldl kqlStep kqlInit

/- ### sqlglot-side model: scope trees and `extract_tables_from_statement`

The sqlglot parser and its `traverse_scope` are the external dialect
capability.  Their output for a statement is a tree of scopes; each scope has
a `scope_type`, a parent (the enclosing scope) and a `sources` mapping from
referenced names to either an `exp.Table` node or a nested `Scope`.  The tree
below is that output; the parent of each scope is determined by its position
in the tree, which is how `traverse_scope` links scopes. -/

/-- `sqlglot.exp.Table`: `name` / `db` / `catalog` are `""` when absent. -/
structure ExpTable where
  name : String
  db : String := ""
  catalog : String := ""
  deriving DecidableEq, Repr

inductive ScopeTypeV where
  | ROOT
  | CTE
  | SUBQUERY
  | DERIVED_TABLE
  | UNION
  deriving DecidableEq, Repr

/-- A scope as produced by `sqlglot.optimizer.scope.traverse_scope`: a scope
type together with the `sources` mapping (name to table node or sub-scope). -/
inductive ScopeT where
  | mk : ScopeTypeV → List (String × (ExpTable ⊕ ScopeT)) → ScopeT
  deriving Repr

def scopeTypeOf : ScopeT → ScopeTypeV
  | .mk ty _ => ty

def scopeSources : ScopeT → List (String × (ExpTable ⊕ ScopeT))
  | .mk _ srcs => srcs

/-- The CTE names among a sources mapping: names whose source is itself a
`Scope` with `scope_type == ScopeType.CTE` (sql_parse.py lines 346-350). -/
def cteNamesOfSources (srcs : List (String × (ExpTable ⊕ ScopeT))) : List String :=
  srcs.filterMap fun p =>
    match p.2 with
    | Sum.inr s => if scopeTypeOf s = ScopeTypeV.CTE then some p.1 else none
    | Sum.inl _ => none

/-- `is_cte(source, scope)` (sql_parse.py lines 333-352).  `scope.parent` is
passed explicitly: `parent_sources` is the sources of the parent when a parent
exists and empty otherwise, and the source is a CTE iff its name is among the
CTE names of those sources.  Only this immediate parent is consulted. -/
def is_cte (source : ExpTable) (parent : Option ScopeT) : Bool :=
  let parent_sources := match parent with
    | some p => scopeSources p
    | none => []
  (cteNamesOfSources parent_sources).contains source.name

/-- Normalization of one extracted source into a `Table`
(sql_parse.py lines 323-330): empty `db`/`catalog` become absent. -/
def mkTableOfSource (t : ExpTable) : Table :=
  { table := t.name
    schema := if t.db = "" then none else some t.db
    catalog := if t.catalog = "" then none else some t.catalog }

/-- The tables contributed by one scope: its sources that are `exp.Table`
nodes and are not CTE names of the parent of the scope (sql_parse.py lines
316-321). -/
def tablesOfScope (parent : Option ScopeT) (s : ScopeT) : List Table :=
  (scopeSources s).filterMap fun p =>
    match p.2 with
    | Sum.inl t => if is_cte t parent then none else some (mkTableOfSource t)
    | Sum.inr _ => none

mutual

/-- The general-case extraction: every scope reached by `traverse_scope`
contributes its non-CTE table sources.  (Python accumulates these into a set;
the model returns the list of extracted tables, the claims compare against a
singleton or the empty result where the distinction is immaterial.) -/
def extractScoped (parent : Option ScopeT) : ScopeT → List Table
  | .mk ty srcs =>
      tablesOfScope parent (.mk ty srcs) ++ extractScopedList (.mk ty srcs) srcs

def extractScopedList (par : ScopeT) :
    List (String × (ExpTable ⊕ ScopeT)) → List Table
  | [] => []
  | (_, Sum.inl _) :: rest => extractScopedList par rest
  | (_, Sum.inr sub) :: rest => extractScoped (some par) sub ++ extractScopedList par rest

end

/-- A single parsed sqlglot statement, by the kinds
`extract_tables_from_statement` distinguishes: a `DESCRIBE` (carrying the
`exp.Table` nodes that `find_all(exp.Table)` returns), an opaque `Command`
(carrying `literal.this` of its first `exp.Literal`, when one exists), or the
general case (carrying the scope tree of the statement). -/
inductive GStatement where
  | describe (tables : List ExpTable)
  | command (literal : Option String)
  | general (root : ScopeT)

/-- `extract_tables_from_statement` (sql_parse.py lines 282-330).
`parseSelect` is the external `sqlglot.parse_one` capability restricted to the
pseudo-query built for a command: it returns the `exp.Table` nodes of the
parsed pseudo-query, or `none` when parsing fails (`ParseError`). -/
def extract_tables_from_statement
    (parseSelect : String → Option (List ExpTable)) :
    GStatement → List Table
  | .describe ts => ts.map mkTableOfSource
  | .command none => []
  | .command (some lit) =>
      match parseSelect ("SELECT " ++ lit) with
      | none => []
      | some ts => ts.map mkTableOfSource
  | .general root => extractScoped none root

/- ### sqlparse-side model: token trees

The sqlparse parser is the external capability producing these trees.  Atoms
carry a token type (`ttype`) and a value; groups (`TokenList` subclasses)
carry a kind and their children, their `ttype` being Python `None`.  Python
token-type equality (`==`, an exact comparison) and the hierarchical
membership test (`in`, true for sub-types such as `Keyword.DML in Keyword`)
are modeled separately. -/

inductive TTypeV where
  | DML
  | DDL
  | CTE
  | Keyword
  | Name
  | Punctuation
  | Whitespace
  | Wildcard
  | IntegerLit
  | Operator
  | StringLit
  deriving DecidableEq, Repr

inductive GroupKind where
  | statement
  | identifier
  | identifierList
  | parenthesis
  | whereClause
  | comparison
  | functionCall
  deriving DecidableEq, Repr

inductive Tok where
  | atom (tt : TTypeV) (v : String)
  | group (k : GroupKind) (children : List Tok)
  deriving Repr

mutual

/-- `str(token)`: the value of an atom, the concatenated children of a group.  For
groups this is also the `.value` snapshot sqlparse computes at construction
time (the trees handled here are not mutated between construction and
rendering, so snapshot and recomputation agree). -/
def render : Tok → String
  | .atom _ v => v
  | .group _ cs => renderList cs

/-- Concatenation of the rendered children, as sqlparse joins `token.value`
over the flattened tokens. -/
def renderList : List Tok → String
  | [] => ""
  | t :: ts => render t ++ renderList ts

end

/-- `token.ttype in Whitespace`. -/
def isWs : Tok → Bool
  | .atom .Whitespace _ => true
  | _ => false

/-- `token.ttype in Keyword`: true for `Keyword` and its sub-types
`Keyword.DML`, `Keyword.DDL`, `Keyword.CTE`. -/
def isKeywordHier : Tok → Bool
  | .atom .Keyword _ => true
  | .atom .DML _ => true
  | .atom .DDL _ => true
  | .atom .CTE _ => true
  | _ => false

/-- `imt(token, m=(Keyword, kw))`: exact ttype `Keyword` and normalized
(upper-cased) value equal to `kw`. -/
def matchKw (t : Tok) (kw : String) : Bool :=
  match t with
  | .atom .Keyword v => upperStr v = kw
  | _ => false

def isGroupTok : Tok → Bool
  | .group _ _ => true
  | _ => false

def isIdentifierGroup : Tok → Bool
  | .group .identifier _ => true
  | _ => false

def isWhereGroup : Tok → Bool
  | .group .whereClause _ => true
  | _ => false

def childrenOf : Tok → List Tok
  | .atom _ _ => []
  | .group _ cs => cs

def wsTok : Tok := .atom .Whitespace " "

/- ### Limit extraction and replacement (sql_parse.py lines 156-174 and
1105-1136) -/

/-- `TokenList.token_next(idx)` with the default whitespace skipping: the
first non-whitespace direct child strictly after index `idx`, with its
index. -/
def tokenNext (ts : List Tok) (idx : Nat) : Option (Nat × Tok) :=
  match ts.drop (idx + 1) |>.findIdx? (fun t => ¬ isWs t) with
  | some j => (ts.drop (idx + 1))[j]?.map (fun t => (idx + 1 + j, t))
  | none => none

/-- Python `int(...)` on the value of an integer-literal token. -/
def intValOf (s : String) : Int :=
  parsePyInt s

/-- `_extract_limit_from_query` (sql_parse.py lines 156-174) on one parsed
statement.  `token_next_by(m=(Keyword, "LIMIT"))` finds the first direct
child matching the keyword; the following non-whitespace token is either an
integer literal (the limit) or an `IdentifierList` for the comma form
`LIMIT offset, limit`, from which the token after the comma is taken. -/
def extract_limit_from_query (stmt : List Tok) : Option Int :=
  match stmt.findIdx? (fun t => matchKw t "LIMIT") with
  | none => none
  | some idx =>
    match tokenNext stmt idx with
    | none => none
    | some (_, tok) =>
      let tok2 : Option Tok :=
        match tok with
        | .group .identifierList cs =>
          match cs.findIdx? (fun t =>
              match t with
              | .atom .Punctuation v => v = ","
              | _ => false) with
          | none => none
          | some cidx => (tokenNext cs cidx).map Prod.snd
        | t => some t
      match tok2 with
      | some (.atom .IntegerLit v) => some (intValOf v)
      | _ => none

/-- Python truthiness of `self._limit` (`None` and `0` are falsy). -/
def limitTruthy : Option Int → Bool
  | none => false
  | some v => v ≠ 0

/-- Strip of `" \t\r\n;"` from both ends (`ParsedQuery.stripped`,
sql_parse.py line 1030). -/
def strippedStr (s : String) : String :=
  let junk : Char → Bool := fun c => c = ' ' ∨ c = '\t' ∨ c = '\r' ∨ c = '\n' ∨ c = ';'
  let l := (s.toList.dropWhile junk).reverse.dropWhile junk |>.reverse
  String.mk l

/-- The state of a `ParsedQuery`: the raw SQL text and the statements that
the external sqlparse parser produced for the stripped text. -/
structure ParsedQueryM where
  sql : String
  parsed : List (List Tok)

/-- `self._limit` after `__init__` (sql_parse.py lines 751-752): the loop
re-assigns `self._limit` for every statement, so the stored value is the
limit extracted from the last statement (`None` when there are none). -/
def pqLimit (pq : ParsedQueryM) : Option Int :=
  match pq.parsed.getLast? with
  | none => none
  | some st => extract_limit_from_query st

/-- `IdentifierList.get_identifiers()` head: the first child that is neither
whitespace nor a comma punctuation (used for the `offset, limit` rewrite). -/
def firstIdentifierIn (cs : List Tok) : Option Tok :=
  cs.find? (fun t =>
    !(isWs t) && !(match t with
      | .atom .Punctuation v => v = ","
      | _ => false))

/-- `ParsedQuery.set_or_update_query_limit` (sql_parse.py lines 1105-1136).
Returns `none` on the paths where the Python code would raise an
`AttributeError` (`limit` token not found in the first statement even though
`self._limit` is truthy).  The result string is the concatenation of the
top-level token values of the first statement, with the value of the limit token
replaced according to the branch taken. -/
def set_or_update_query_limit (pq : ParsedQueryM) (new_limit : Int)
    (force : Bool) : Option String :=
  if ¬ limitTruthy (pqLimit pq) then
    some (strippedStr pq.sql ++ "\nLIMIT " ++ toString new_limit)
  else
    match pq.parsed.head? with
    | none => none
    | some stmt =>
      match stmt.findIdx? (fun t => isKeywordHier t ∧ lowerStr (render t) = "limit") with
      | none => none
      | some limit_pos =>
        match tokenNext stmt limit_pos with
        | none => none
        | some (j, ltok) =>
          let newVal : String :=
            match ltok with
            | .atom .IntegerLit v =>
              if force ∨ new_limit < intValOf v then toString new_limit else v
            | .group k cs =>
              match firstIdentifierIn cs with
              | some idTok => render idTok ++ ", " ++ toString new_limit
              | none => render (.group k cs)
            | t => render t
          some (String.join (stmt.mapIdx fun i t =>
            if i = j then newVal else render t))

/- ### `ParsedQuery.is_select` (sql_parse.py lines 926-991)

A parsed statement is its token tree together with the `get_type()` string
that the external sqlparse parser computes for it.  sqlparse `Statement`
objects are always groups, so the `statement.is_group` conjunct of the CTE
test is always true.  The optional sqloxide cross-check of CTE bodies is an
external collaborator: `none` models the module being unavailable,
`some (Except.error ())` a `ValueError` from `sqloxide_parse` (caught and
ignored), and `some (Except.ok b)` the value of `_check_cte_is_select`. -/

structure PStatement where
  tokens : List Tok
  typeStr : String

/-- `statement[0].ttype == Keyword.CTE` on a (non-empty) statement. -/
def startsWithCte (st : PStatement) : Bool :=
  match st.tokens.head? with
  | some (.atom .CTE _) => true
  | _ => false

/-- The DDL / non-SELECT-DML scan applied to a list of sibling tokens
(sql_parse.py lines 946-949 and 961-964): any direct child with exact ttype
`DDL`, or exact ttype `DML` whose normalized value is not `SELECT`. -/
def hasBadDdlDml (ts : List Tok) : Bool :=
  ts.any (fun t => match t with
    | .atom .DDL _ => true
    | _ => false) ||
  ts.any (fun t => match t with
    | .atom .DML v => upperStr v ≠ "SELECT"
    | _ => false)

/-- `ParsedQuery.get_inner_cte_expression` (sql_parse.py lines 982-991): for
the first `Identifier`/`IdentifierList` child, the children of its first
`Parenthesis` group child. -/
def get_inner_cte_expression (ts : List Tok) : Option (List Tok) :=
  ts.firstM fun t =>
    match t with
    | .group .identifier cs =>
        cs.firstM fun c =>
          match c with
          | .group .parenthesis ps => some ps
          | _ => none
    | .group .identifierList cs =>
        cs.firstM fun c =>
          match c with
          | .group .parenthesis ps => some ps
          | _ => none
    | _ => none

/-- One direct child with exact ttype `DML` and normalized value `SELECT`
(sql_parse.py lines 974-978). -/
def hasSelectDml (ts : List Tok) : Bool :=
  ts.any (fun t => match t with
    | .atom .DML v => upperStr v = "SELECT"
    | _ => false)

/-- `sqloxide_parse is not None` and `_check_cte_is_select(...)` returned
`False` without a `ValueError` being raised. -/
def sqloxideVetoes : Option (Except Unit Bool) → Bool
  | some (Except.ok false) => true
  | _ => false

/-- The statement loop of `ParsedQuery.is_select` (sql_parse.py lines
929-980), with the early `return False` exits. -/
def isSelectLoop (sqloxideCte : Option (Except Unit Bool)) (seen : Bool) :
    List PStatement → Bool
  | [] => seen
  | st :: rest =>
    if startsWithCte st && sqloxideVetoes sqloxideCte then false
    else if startsWithCte st && hasBadDdlDml ((get_inner_cte_expression st.tokens).getD []) then
      false
    else if st.typeStr = "SELECT" then isSelectLoop sqloxideCte true rest
    else if st.typeStr ≠ "UNKNOWN" then false
    else if hasBadDdlDml st.tokens then false
    else if (match st.tokens.head? with
             | some t => matchKw t "USE"
             | none => false) then isSelectLoop sqloxideCte seen rest
    else if (match st.tokens.head? with
             | some t => isKeywordHier t
             | none => false) then false
    else if ¬ hasSelectDml st.tokens then false
    else isSelectLoop sqloxideCte seen rest

/-- `ParsedQuery.is_select` (sql_parse.py lines 926-980) over the statements
that the external sqlparse parser produced for the comment-stripped text. -/
def is_select (sqloxideCte : Option (Except Unit Bool))
    (statements : List PStatement) : Bool :=
  isSelectLoop sqloxideCte false statements

/- ### The RLS rewrite engine (sql_parse.py lines 1169-1497)

`get_rls_for_table` queries the application database (the external RLS
predicate provider) and returns the parsed, table-qualified predicate as a
sqlparse tree; it is a parameter `getRls` here, mapping a candidate token to
the predicate tree (a statement group whose children are `rls.tokens`) or
`none` when no predicate applies.

The Python functions mutate `token_list.tokens` in place while a `for` loop
iterates over that same list; after an insertion the iterator continues from
its current position, so freshly inserted tokens are themselves visited.  The
model mirrors this with an explicit index `k` that advances by exactly one
per iteration over the evolving list; `token_list.tokens.index(token)` (an
identity lookup in Python) is the current index `k`.  The loops terminate in
Python because inserted tokens never trigger further insertions; the model
makes termination syntactic with a fuel parameter that every step and every
recursion into a child group consumes, and each claim instantiates the fuel
large enough that it is never exhausted. -/

inductive InsertRLSState where
  | SCANNING
  | SEEN_SOURCE
  | FOUND_TABLE
  deriving DecidableEq, Repr

/-- `imt(token, m=[(Keyword, "FROM"), (Keyword, "JOIN")])`. -/
def isFromJoin (t : Tok) : Bool :=
  matchKw t "FROM" || matchKw t "JOIN"

/-- `token.ttype == Keyword` — the exact comparison, false for the sub-types
`DML`/`DDL`/`CTE` and for groups. -/
def isExactKeyword : Tok → Bool
  | .atom .Keyword _ => true
  | _ => false

def lpTok : Tok := .atom .Punctuation "("

def rpTok : Tok := .atom .Punctuation ")"

def andKwTok : Tok := .atom .Keyword "AND"

def kwWhereTok : Tok := .atom .Keyword "WHERE"

/-- Placeholder used where the Python code reads the `rls` variable under the
`FOUND_TABLE` state; that state is only ever entered with a present
predicate, so the placeholder is unreachable. -/
def rlsFallback : Tok := .group .statement []

/-- sqlparse `Identifier.get_alias() is not None`: an `AS` keyword child, or
(for the implicit-alias form) more than two children with a whitespace. -/
def idHasAlias (cs : List Tok) : Bool :=
  cs.any (fun t => matchKw t "AS") || (cs.length > 2 && cs.any isWs)

/-- The `WHERE` rewrite of predicate mode (sql_parse.py lines 1418-1430):
`token.tokens[1:1] = [ws, "("]` followed by
`token.tokens.extend([")", ws, "AND", ws] + rls.tokens)`. -/
def rewriteWhere (w : Tok) (r : Option Tok) : Tok :=
  match w with
  | .group .whereClause cs =>
      .group .whereClause
        (cs.take 1 ++ [wsTok, lpTok] ++ cs.drop 1
          ++ [rpTok, wsTok, andKwTok, wsTok] ++ childrenOf (r.getD rlsFallback))
  | t => t

/-- A sibling ending the `ON` comparison chain (sql_parse.py lines
1454-1464): an exact `Keyword` that is none of `AND`/`OR`/`NOT`, or a
`WHERE` clause group. -/
def isClauseTerminator (s : Tok) : Bool :=
  (isExactKeyword s && !(matchKw s "AND" || matchKw s "OR" || matchKw s "NOT"))
    || isWhereGroup s

/-- The `Where([WHERE, " ", rls])` clause synthesized when no `WHERE` exists
(sql_parse.py lines 1478 and 1493). -/
def syntheticWhere (r : Option Tok) : Tok :=
  .group .whereClause [kwWhereTok, wsTok, r.getD rlsFallback]

mutual

/-- `insert_rls_in_predicate` (sql_parse.py lines 1378-1497) on the children
of a token list: run the scanning loop, then append the synthetic `WHERE`
when the loop ends in `FOUND_TABLE`. -/
def insert_rls_in_predicate (getRls : Tok → Option Tok) :
    Nat → List Tok → List Tok
  | 0, ts => ts
  | fuel + 1, ts =>
    match predLoop getRls fuel ts 0 .SCANNING none with
    | (ts2, .FOUND_TABLE, r) => ts2 ++ [wsTok, syntheticWhere r]
    | (ts2, _, _) => ts2

/-- The `for token in token_list.tokens` loop of `insert_rls_in_predicate`,
one call per loop iteration (index `k`), carrying the `state` and `rls`
variables. -/
def predLoop (getRls : Tok → Option Tok) :
    Nat → List Tok → Nat → InsertRLSState → Option Tok →
      List Tok × InsertRLSState × Option Tok
  | 0, ts, _, st, r => (ts, st, r)
  | fuel + 1, ts, k, st, r =>
    match ts[k]? with
    | none => (ts, st, r)
    | some tok0 =>
      let tok1 := match tok0 with
        | .group g cs => Tok.group g (insert_rls_in_predicate getRls fuel cs)
        | a => a
      let ts1 := ts.set k tok1
      if isFromJoin tok1 then
        predLoop getRls fuel ts1 (k + 1) .SEEN_SOURCE r
      else if st = .SEEN_SOURCE && (isIdentifierGroup tok1 || isExactKeyword tok1) then
        let r2 := getRls tok1
        predLoop getRls fuel ts1 (k + 1)
          (if r2.isSome then .FOUND_TABLE else st) r2
      else if st = .FOUND_TABLE && isWhereGroup tok1 then
        predLoop getRls fuel (ts1.set k (rewriteWhere tok1 r)) (k + 1) .SCANNING r
      else if st = .FOUND_TABLE && matchKw tok1 "ON" then
        let inserted := [wsTok, r.getD rlsFallback, wsTok, andKwTok, wsTok, lpTok]
        let ts2 := ts1.take (k + 1) ++ inserted ++ ts1.drop (k + 1)
        let i2 := k + 8
        let siblings := ts2.drop i2
        let pos := match siblings.findIdx? isClauseTerminator with
          | some idx => i2 + idx
          | none => if siblings.isEmpty then i2 + 1 else i2 + siblings.length
        let ts3 := ts2.take pos ++ [wsTok, rpTok, wsTok] ++ ts2.drop pos
        predLoop getRls fuel ts3 (k + 1) .SCANNING r
      else if st = .FOUND_TABLE && !(isWs tok1) then
        let ts2 := ts1.take k ++ [wsTok, syntheticWhere r, wsTok] ++ ts1.drop k
        predLoop getRls fuel ts2 (k + 1) .SCANNING r
      else if st = .SEEN_SOURCE && !(isWs tok1) then
        predLoop getRls fuel ts1 (k + 1) .SCANNING r
      else
        predLoop getRls fuel ts1 (k + 1) st r

end

mutual

/-- `insert_rls_as_subquery` (sql_parse.py lines 1286-1375) on the children
of a token list. -/
def insert_rls_as_subquery (getRls : Tok → Option Tok) :
    Nat → List Tok → List Tok
  | 0, ts => ts
  | fuel + 1, ts => subqLoop getRls fuel ts 0 .SCANNING

/-- The `for token in token_list.tokens` loop of `insert_rls_as_subquery`. -/
def subqLoop (getRls : Tok → Option Tok) :
    Nat → List Tok → Nat → InsertRLSState → List Tok
  | 0, ts, _, _ => ts
  | fuel + 1, ts, k, st =>
    match ts[k]? with
    | none => ts
    | some tok0 =>
      let tok1 := match tok0 with
        | .group g cs => Tok.group g (insert_rls_as_subquery getRls fuel cs)
        | a => a
      let ts1 := ts.set k tok1
      if isFromJoin tok1 then
        subqLoop getRls fuel ts1 (k + 1) .SEEN_SOURCE
      else if st = .SEEN_SOURCE && (isIdentifierGroup tok1 || isExactKeyword tok1) then
        match getRls tok1 with
        | none => subqLoop getRls fuel ts1 (k + 1) st
        | some rls =>
          let allAlias := match tok1 with
            | .group .identifier cs => ((cs.getLast?).map render).getD ""
            | t => render t
          let stripped := match tok1 with
            | .group .identifier cs =>
                if idHasAlias cs then
                  match cs.findIdx? isWs with
                  | some wi => Tok.group .identifier (cs.take wi)
                  | none => Tok.group .identifier cs
                else Tok.group .identifier cs
            | t => t
          let replacement := Tok.group .identifier
            [Tok.group .parenthesis
                [lpTok, .atom .DML "SELECT", wsTok, .atom .Wildcard "*", wsTok,
                  .atom .Keyword "FROM", wsTok, stripped, wsTok,
                  .group .whereClause [kwWhereTok, wsTok, rls], rpTok],
              wsTok, .atom .Keyword "AS", wsTok,
              Tok.group .identifier [.atom .Name allAlias]]
          subqLoop getRls fuel (ts1.set k replacement) (k + 1) .SCANNING
      else if st = .SEEN_SOURCE && !(isWs tok1) then
        subqLoop getRls fuel ts1 (k + 1) .SCANNING
      else
        subqLoop getRls fuel ts1 (k + 1) st

end

/- ### Concrete instances

Token trees and scope trees as the external parsers produce them for the
example queries of the specification. -/

/-- Scope tree of `WITH cte AS (SELECT * FROM a) SELECT * FROM cte`: the root
scope resolves the name `cte` to the scope of the CTE, whose own sources map
`a` to the physical table node. -/
def cteScopeEx : ScopeT := .mk .CTE [("a", Sum.inl { name := "a" })]

def rootScopeEx : ScopeT := .mk .ROOT [("cte", Sum.inr cteScopeEx)]

/-- A three-level scope tree in which the ROOT scope binds the CTE name `x`,
an intermediate subquery scope binds no CTE, and the innermost scope
references a physical table also named `x`.  The nearest enclosing scope of
that reference (the intermediate scope) has no CTE binding for `x`, so a
transitive walk would exclude the table while the nearest-scope rule keeps
it. -/
def innerScopeEx : ScopeT := .mk .SUBQUERY [("x", Sum.inl { name := "x" })]

def midScopeEx : ScopeT := .mk .SUBQUERY [("q", Sum.inr innerScopeEx)]

def transRootEx : ScopeT := .mk .ROOT
  [("x", Sum.inr (ScopeT.mk .CTE [("b", Sum.inl { name := "b" })])),
   ("sub", Sum.inr midScopeEx)]

/-- The RLS predicate tree for `id=42` on table `t` after `add_table_name`
qualified the bare column: the parsed statement whose single child is the
comparison `t.id=42`. -/
def rlsT : Tok := .group .statement
  [.group .comparison
    [.group .identifier [.atom .Name "t", .atom .Punctuation ".", .atom .Name "id"],
     .atom .Operator "=", .atom .IntegerLit "42"]]

/-- The external RLS predicate provider: table `t` of the example has the
predicate `id=42`, no other candidate has one. -/
def getRlsT (tok : Tok) : Option Tok :=
  if render tok = "t" then some rlsT else none

/-- sqlparse token tree of `SELECT * FROM t WHERE 1=1`. -/
def stmtWhereToks : List Tok :=
  [.atom .DML "SELECT", wsTok, .atom .Wildcard "*", wsTok,
   .atom .Keyword "FROM", wsTok, .group .identifier [.atom .Name "t"], wsTok,
   .group .whereClause [kwWhereTok, wsTok,
     .group .comparison [.atom .IntegerLit "1", .atom .Operator "=", .atom .IntegerLit "1"]]]

/-- sqlparse token tree of `SELECT * FROM t`. -/
def stmtNoWhereToks : List Tok :=
  [.atom .DML "SELECT", wsTok, .atom .Wildcard "*", wsTok,
   .atom .Keyword "FROM", wsTok, .group .identifier [.atom .Name "t"]]

/-- sqlparse token tree of `SELECT 1 LIMIT 100`. -/
def stmtLimit100 : List Tok :=
  [.atom .DML "SELECT", wsTok, .atom .IntegerLit "1", wsTok,
   .atom .Keyword "LIMIT", wsTok, .atom .IntegerLit "100"]

def pqLimit100 : ParsedQueryM :=
  { sql := "SELECT 1 LIMIT 100", parsed := [stmtLimit100] }

/-- sqlparse token tree of `SELECT 1 LIMIT 0`. -/
def stmtLimit0 : List Tok :=
  [.atom .DML "SELECT", wsTok, .atom .IntegerLit "1", wsTok,
   .atom .Keyword "LIMIT", wsTok, .atom .IntegerLit "0"]

def pqLimit0 : ParsedQueryM :=
  { sql := "SELECT 1 LIMIT 0", parsed := [stmtLimit0] }

/-- `SELECT 1`, a query without any limit. -/
def pqNoLimit : ParsedQueryM :=
  { sql := "SELECT 1",
    parsed := [[.atom .DML "SELECT", wsTok, .atom .IntegerLit "1"]] }

/-- `SELECT 1` as parsed by sqlparse: type `SELECT`. -/
def selStmt : PStatement :=
  { tokens := [.atom .DML "SELECT", wsTok, .atom .IntegerLit "1"]
    typeStr := "SELECT" }

/-- `INSERT INTO a VALUES (1)` as parsed by sqlparse: type `INSERT`. -/
def insStmt : PStatement :=
  { tokens := [.atom .DML "INSERT", wsTok, .atom .Keyword "INTO", wsTok,
      .group .identifier [.atom .Name "a"], wsTok, .atom .Keyword "VALUES", wsTok,
      .group .parenthesis [lpTok, .atom .IntegerLit "1", rpTok]]
    typeStr := "INSERT" }

/-- `WITH c AS (DELETE FROM a) SELECT * FROM c` as parsed by sqlparse: the
statement opens with the `CTE` keyword, the CTE definition is the identifier
`c AS (DELETE FROM a)` whose parenthesis holds the `DELETE` DML token, and
`get_type()` reports the trailing `SELECT`. -/
def withDelStmt : PStatement :=
  { tokens := [.atom .CTE "WITH", wsTok,
      .group .identifier [.atom .Name "c", wsTok, .atom .Keyword "AS", wsTok,
        .group .parenthesis [lpTok, .atom .DML "DELETE", wsTok, .atom .Keyword "FROM", wsTok,
          .group .identifier [.atom .Name "a"], rpTok]], wsTok,
      .atom .DML "SELECT", wsTok, .atom .Wildcard "*", wsTok, .atom .Keyword "FROM", wsTok,
      .group .identifier [.atom .Name "c"]]
    typeStr := "SELECT" }

/-- `USE db1` as parsed by sqlparse: a plain keyword statement, type
`UNKNOWN`. -/
def useStmt : PStatement :=
  { tokens := [.atom .Keyword "USE", wsTok, .group .identifier [.atom .Name "db1"]]
    typeStr := "UNKNOWN" }

/-- `EXPLAIN SELECT 1` as parsed by sqlparse: leading plain keyword, type
`UNKNOWN`. -/
def explainStmt : PStatement :=
  { tokens := [.atom .Keyword "EXPLAIN", wsTok, .atom .DML "SELECT", wsTok,
      .atom .IntegerLit "1"]
    typeStr := "UNKNOWN" }

/-- The KQL text `print 'a;b'; print 'c'` as a character list. -/
def kqlExample : List Char :=
  "print ".toList ++ [sqChar] ++ "a;b".toList ++ [sqChar]
    ++ ";".toList ++ " print ".toList ++ [sqChar] ++ "c".toList ++ [sqChar]

/-- Its first statement, `print 'a;b'`. -/
def kqlExpected1 : List Char :=
  "print ".toList ++ [sqChar] ++ "a;b".toList ++ [sqChar]

/-- Its second statement, ` print 'c'` (the leading space is kept by the
splitter). -/
def kqlExpected2 : List Char :=
  " print ".toList ++ [sqChar] ++ "c".toList ++ [sqChar]

/-- `print 'a` — a trailing statement containing an unterminated
single-quoted string, not ending in a semicolon. -/
def kqlUnterminated : List Char := "print ".toList ++ [sqChar] ++ "a".toList

/-- `print 1` — a trailing statement not ending in a semicolon. -/
def kqlTrailing : List Char := "print 1".toList

/- ### Claims -/

/-- Claim C1: `extract_tables_from_statement` never returns a CTE alias: a
name is treated as a CTE (and excluded) iff it is present in the CTE bindings
of the nearest enclosing scope, and only the immediate parent scope is
consulted, never transitively.  First two conjuncts: `is_cte` holds exactly
when the name is among the CTE names of the sources of the immediate parent
(false at the root, which has no parent).  Third conjunct: extracting tables
from the scope tree of `WITH cte AS (SELECT * FROM a) SELECT * FROM cte`
yields exactly `Table("a")`.  Fourth conjunct: a table named like a CTE bound
only in the grandparent scope is extracted, demonstrating that the walk is
not transitive. -/
theorem C1_cte_nearest_scope_only :
    (∀ (t : ExpTable) (p : ScopeT),
        is_cte t (some p) = (cteNamesOfSources (scopeSources p)).contains t.name)
    ∧ (∀ t : ExpTable, is_cte t none = false)
    ∧ extractScoped none rootScopeEx = [{ table := "a" }]
    ∧ extractScoped none transRootEx = [{ table := "b" }, { table := "x" }] :=
  ⟨fun _ _ => rfl, fun _ => rfl, by decide, by decide⟩

/-- Claim C2: in predicate mode, a table with an RLS predicate has an
existing `WHERE` clause rewritten to `WHERE ( <original> ) AND <rls>` — for
`SELECT * FROM t WHERE 1=1` with predicate `id=42` on `t` the rewrite yields
`SELECT * FROM t WHERE ( 1=1) AND t.id=42` — and when no token at all
follows the table reference before statement end, a synthetic
`WHERE <rls>` clause is appended at the end. -/
theorem C2_predicate_mode_rewrite :
    renderList (insert_rls_in_predicate getRlsT 200 stmtWhereToks)
      = "SELECT * FROM t WHERE ( 1=1) AND t.id=42"
    ∧ renderList (insert_rls_in_predicate getRlsT 200 stmtNoWhereToks)
      = "SELECT * FROM t WHERE t.id=42" :=
  ⟨by decide, by decide⟩

/-- Claim C3, counterexample: the RLS rewrite is not copy-on-write.  Both
`insert_rls_in_predicate` and `insert_rls_as_subquery` update
`token_list.tokens` in place (their docstrings say "Update a statement
inplace") and return the very object they were passed, so after the call the
tree held by the caller is the rewritten one; its content differs from the
original input tree, refuting the claim that the original statement is not
mutated. -/
theorem C3_rewrite_changes_the_tree :
    renderList (insert_rls_in_predicate getRlsT 200 stmtWhereToks) ≠ renderList stmtWhereToks
    ∧ renderList (insert_rls_as_subquery getRlsT 200 stmtWhereToks) ≠ renderList stmtWhereToks :=
  ⟨by decide, by decide⟩

/-- Claim C3 as amended: the RLS rewrite operations mutate the token tree in
place and return it; the rewritten content (for subquery mode,
`SELECT * FROM (SELECT * FROM t WHERE t.id=42) AS t WHERE 1=1` on the
example) is not the original content, so a caller needing the original must
keep a separate copy before calling. -/
theorem C3_in_place_rewrite :
    renderList (insert_rls_as_subquery getRlsT 200 stmtWhereToks)
      = "SELECT * FROM (SELECT * FROM t WHERE t.id=42) AS t WHERE 1=1"
    ∧ renderList (insert_rls_in_predicate getRlsT 200 stmtNoWhereToks)
        ≠ renderList stmtNoWhereToks :=
  ⟨by decide, by decide⟩

/-- Claim C4: for an opaque `Command` statement, table extraction never
raises: with no literal argument the result is the empty set, and when the
pseudo-query `SELECT <argument>` built from the first literal fails to parse
(the external parser returns no result), the result is the empty set. -/
theorem C4_command_extraction_never_raises
    (p : String → Option (List ExpTable)) (lit : String)
    (h : p ("SELECT " ++ lit) = none) :
    extract_tables_from_statement p (.command none) = []
    ∧ extract_tables_from_statement p (.command (some lit)) = [] := by
  refine ⟨rfl, ?_⟩
  simp [extract_tables_from_statement, h]

/-- Witness for C4 at the always-failing parser and the literal `foo`. -/
theorem C4_command_extraction_never_raises_witness :
    (fun _ : String => (none : Option (List ExpTable))) "SELECT foo" = none
    ∧ extract_tables_from_statement (fun _ => none) (.command none) = []
    ∧ extract_tables_from_statement (fun _ => none) (.command (some "foo")) = [] :=
  ⟨rfl, (C4_command_extraction_never_raises (fun _ => none) "foo" rfl).1,
    (C4_command_extraction_never_raises (fun _ => none) "foo" rfl).2⟩

/-- Claim C5: `Table.__str__` produces the canonical forms of the examples
and `Table.__eq__` is exactly canonical-string equality; but the claim that
equal Tables have equal hashes fails on the code: `Table("t", schema="s")`
and `Table("t", catalog="s")` are equal (both render `s.t`) while the
dataclass-generated `__hash__` hashes their distinct field tuples
`("t", "s", None)` and `("t", None, "s")`, so equality is not respected by
the hash. -/
theorem C5_eq_by_string_hash_by_fields :
    tableStr { table := "t" } = "t"
    ∧ tableStr { table := "t", schema := some "s" } = "s.t"
    ∧ tableStr { table := "t", schema := some "s", catalog := some "c" } = "c.s.t"
    ∧ (∀ a b : Table, tableEq a b = true ↔ tableStr a = tableStr b)
    ∧ tableEq { table := "t", schema := some "s" } { table := "t", catalog := some "s" } = true
    ∧ tableHashFields { table := "t", schema := some "s" }
        ≠ tableHashFields { table := "t", catalog := some "s" } := by
  refine ⟨by decide, by decide, by decide, fun a b => ?_, by decide, by decide⟩
  simp [tableEq]

/-- Claim C6: `is_select` is true on a pure SELECT, false on an INSERT,
false on a CTE whose inner body contains non-SELECT DML (for every value of
the optional sqloxide cross-check), true when a `USE` statement precedes a
SELECT (USE is skipped), and false on a bare keyword-leading unknown
statement such as `EXPLAIN`. -/
theorem C6_is_select_examples :
    (∀ so, is_select so [selStmt] = true)
    ∧ (∀ so, is_select so [insStmt] = false)
    ∧ (∀ so, is_select so [withDelStmt] = false)
    ∧ (∀ so, is_select so [useStmt, selStmt] = true)
    ∧ (∀ so, is_select so [explainStmt] = false) := by
  refine ⟨?_, ?_, ?_, ?_, ?_⟩ <;>
    (intro so
     rcases so with _ | e
     · decide
     · rcases e with u | b
       · cases u
         decide
       · rcases b with _ | _ <;> decide)

/-- Helper: full evaluation of `set_or_update_query_limit` on the
`SELECT 1 LIMIT 100` query for a symbolic new limit and force flag. -/
theorem setLimit100_eval (n : Int) (force : Bool) :
    set_or_update_query_limit pqLimit100 n force
      = some ("SELECT 1 LIMIT " ++ (if force ∨ n < 100 then toString n else "100")) := rfl

/-- Claim C7: `set_or_update_query_limit` appends `LIMIT <n>` to the stripped
text when the query has no existing limit (first conjunct, for every such
query); an existing integer limit is replaced exactly when `force` is true or
the new value is strictly smaller, never silently raised (remaining
conjuncts, on `SELECT 1 LIMIT 100` for every new limit): 10 replaces 100,
500 without force leaves 100 in place. -/
theorem C7_set_or_update_query_limit_behavior :
    (∀ (pq : ParsedQueryM) (n : Int) (force : Bool),
        limitTruthy (pqLimit pq) = false →
        set_or_update_query_limit pq n force
          = some (strippedStr pq.sql ++ "\nLIMIT " ++ toString n))
    ∧ set_or_update_query_limit pqLimit100 10 false = some "SELECT 1 LIMIT 10"
    ∧ set_or_update_query_limit pqLimit100 500 false = some "SELECT 1 LIMIT 100"
    ∧ (∀ n : Int, ¬ n < 100 →
        set_or_update_query_limit pqLimit100 n false = some "SELECT 1 LIMIT 100")
    ∧ (∀ n : Int, n < 100 →
        set_or_update_query_limit pqLimit100 n false
          = some ("SELECT 1 LIMIT " ++ toString n))
    ∧ (∀ n : Int, set_or_update_query_limit pqLimit100 n true
        = some ("SELECT 1 LIMIT " ++ toString n)) := by
  refine ⟨?_, by decide, by decide, ?_, ?_, ?_⟩
  · intro pq n force h
    simp [set_or_update_query_limit, h]
  · intro n h
    rw [setLimit100_eval]
    simp only [Bool.false_eq_true, false_or]
    rw [if_neg h]
    rfl
  · intro n h
    rw [setLimit100_eval]
    simp only [Bool.false_eq_true, false_or]
    rw [if_pos h]
  · intro n
    rw [setLimit100_eval, if_pos (Or.inl rfl)]

/-- Witness for C7: the no-limit branch at `SELECT 1` with new limit 10, and
the preserved-limit branch at `SELECT 1 LIMIT 100` with new limit 500. -/
theorem C7_set_or_update_query_limit_witness :
    limitTruthy (pqLimit pqNoLimit) = false
    ∧ set_or_update_query_limit pqNoLimit 10 false = some "SELECT 1\nLIMIT 10"
    ∧ ¬ (500 : Int) < 100
    ∧ set_or_update_query_limit pqLimit100 500 false = some "SELECT 1 LIMIT 100" := by
  refine ⟨by decide, ?_, by decide,
    C7_set_or_update_query_limit_behavior.2.2.2.1 500 (by decide)⟩
  have h := C7_set_or_update_query_limit_behavior.1 pqNoLimit 10 false (by decide)
  exact h

/-- Claim C8: `split_kql` splits at a semicolon only in the
`OUTSIDE_STRING` state.  First conjunct: a step of the scan either leaves the
statement list unchanged or the state was `OUTSIDE_STRING`, the character was
a semicolon, and the pending statement was emitted.  Second and third
conjuncts: the example text with a semicolon inside single quotes splits into
exactly the two expected statements. -/
theorem C8_semicolon_splits_only_outside :
    (∀ (a : KqlAcc) (c : Char),
        (kqlStep a c).stmts = a.stmts
        ∨ (a.state = KQLSplitState.OUTSIDE_STRING ∧ c = ';'
            ∧ (kqlStep a c).stmts = a.stmts ++ [a.cur]))
    ∧ split_kql kqlExample = [kqlExpected1, kqlExpected2]
    ∧ (split_kql kqlExample).length = 2 := by
  refine ⟨?_, by decide, by decide⟩
  intro a c
  by_cases h1 : a.state = KQLSplitState.OUTSIDE_STRING
  · by_cases h2 : c = ';'
    · right
      refine ⟨h1, h2, ?_⟩
      simp [kqlStep, h1, h2]
    · left
      simp only [kqlStep, h1]
      split_ifs <;> simp_all
  · left
    simp only [kqlStep]
    split_ifs <;> simp_all

/-- Claim C9, counterexample: `print 'a` does not end in a semicolon, yet
`split_kql` returns the empty list — the appended semicolon falls inside the
unterminated single-quoted string, so the trailing statement is not captured
as the last element. -/
theorem C9_unterminated_trailing_dropped :
    kqlUnterminated.getLast? ≠ some ';' ∧ split_kql kqlUnterminated = [] :=
  ⟨by decide, by decide⟩

/-- Claim C9 as amended: for every input not ending in a semicolon the input
is normalized by appending one before scanning (`split_kql kql` equals
`split_kql` of `kql ++ ";"`), and whenever the scan of the input ends in the
`OUTSIDE_STRING` state the trailing statement is captured as the last element
of the result; when the scan ends inside a string the trailing text is
dropped. -/
theorem C9_normalization_and_outside_capture :
    ∀ kql : List Char, kql.getLast? ≠ some ';' →
      split_kql kql = split_kql (kql ++ [';'])
      ∧ ((kqlScan kql).state = KQLSplitState.OUTSIDE_STRING →
          split_kql kql = (kqlScan kql).stmts ++ [(kqlScan kql).cur]) := by
  intro kql h
  have hq : (kql ++ [';']).getLast? = some ';' := by
    simp [List.getLast?_concat]
  constructor
  · simp [split_kql, h, hq]
  · intro hst
    have hs : split_kql kql = (List.foldl kqlStep kqlInit (kql ++ [';'])).stmts := by
      simp [split_kql, h]
    rw [hs, List.foldl_append]
    simp only [List.foldl_cons, List.foldl_nil]
    unfold kqlScan at hst ⊢
    simp [kqlStep, hst]

/-- Witness for C9 at `print 1`: the input does not end in a semicolon, the
scan ends outside any string, and the trailing statement is captured. -/
theorem C9_normalization_witness :
    kqlTrailing.getLast? ≠ some ';'
    ∧ split_kql kqlTrailing = split_kql (kqlTrailing ++ [';'])
    ∧ split_kql kqlTrailing = (kqlScan kqlTrailing).stmts ++ [(kqlScan kqlTrailing).cur] :=
  ⟨by decide, (C9_normalization_and_outside_capture kqlTrailing (by decide)).1,
    (C9_normalization_and_outside_capture kqlTrailing (by decide)).2 (by decide)⟩

/-- Claim C10: a stored limit of 0 fails the Python truthiness check, so
`set_or_update_query_limit` treats `SELECT 1 LIMIT 0` as having no limit and
appends `LIMIT 10`, producing a query containing both the original `LIMIT 0`
and the appended limit. -/
theorem C10_limit_zero_treated_as_absent :
    extract_limit_from_query stmtLimit0 = some 0
    ∧ limitTruthy (pqLimit pqLimit0) = false
    ∧ set_or_update_query_limit pqLimit0 10 false = some "SELECT 1 LIMIT 0\nLIMIT 10" :=
  ⟨by decide, by decide, by decide⟩
